import Mathlib

/-!
Verification of the `node-event-source` SSE client (`src/axios.ts` and its
line-framing pipeline) against its natural-language specification.

The orchestrator in `nodeEventSource` is embedded as explicit state passing:
`OState` carries the mutable variables of the closure (`headers`,
`retryInterval`, `retryTimer`, the current attempt's abort flag) together
with the promise outcome and counters for the caller-visible hook
invocations.  Each control point of the source (the success tail of
`create`, the `catch` block, the outer abort listener, the id/retry sinks)
becomes a state-transition function translated line by line from the code.
-/

set_option autoImplicit false

/-- JavaScript string-keyed record, as used for the header maps.  Lookup and
update are keyed on the exact property name, as in the source. -/
abbrev Headers := List (String × String)

/-- Property read `h[k]`: first binding for the exact key, if any. -/
def hGet (h : Headers) (k : String) : Option String :=
  match h with
  | [] => none
  | (k1, v1) :: rest => if k1 = k then some v1 else hGet rest k

/-- Property write `h[k] = v`: replace the existing binding in place, or
append a new one. -/
def hSet (h : Headers) (k v : String) : Headers :=
  match h with
  | [] => [(k, v)]
  | (k1, v1) :: rest => if k1 = k then (k, v) :: rest else (k1, v1) :: hSet rest k v

/-- Property delete `delete h[k]`. -/
def hDel (h : Headers) (k : String) : Headers :=
  h.filter (fun p => p.1 ≠ k)

/-- Whether a string contains the null character U+0000. -/
def containsNull (s : String) : Bool :=
  s.data.any (fun c => c = Char.ofNat 0)

/-- `EventStreamContentType` from src/axios.ts. -/
def EventStreamContentType : String := "text/event-stream"

/-- `DefaultRetryInterval` from src/axios.ts. -/
def DefaultRetryInterval : Nat := 1000

/-- `LastEventId` from src/axios.ts. -/
def LastEventId : String := "last-event-id"

/-- `NodeEventSourceErrorType` from src/axios.ts. -/
inductive ErrType where
  | Request
  | Other
deriving DecidableEq, Repr

/-- A fault raised during one attempt; `axiosErr` stands for values that are
`instanceof AxiosError`, `otherErr` for anything else thrown. -/
inductive Fault where
  | axiosErr (code : Nat)
  | otherErr (code : Nat)
deriving DecidableEq, Repr

/-- `NodeEventSourceError` from src/axios.ts: the classified error handed to
the error policy. -/
structure NError where
  type : ErrType
  origin : Fault
deriving DecidableEq, Repr

/-- The classification performed in the `catch` block of `create`
(src/axios.ts lines 148-154). -/
def classify (f : Fault) : NError :=
  match f with
  | .axiosErr n => ⟨ErrType.Request, .axiosErr n⟩
  | .otherErr n => ⟨ErrType.Other, .otherErr n⟩

/-- A JavaScript value thrown by an error policy: the default policy throws
the classified `NError`; a custom policy may throw anything. -/
inductive Thrown where
  | nerr (e : NError)
  | custom (n : Nat)
deriving DecidableEq, Repr

/-- Result of invoking an error policy: a normal return of
`boolean | void` (so `Option Bool`), or a throw. -/
inductive PolicyRes where
  | ret (v : Option Bool)
  | raise (e : Thrown)

/-- `defaultOnError` from src/axios.ts: re-throws the classified error. -/
def defaultOnError (e : NError) : PolicyRes :=
  .raise (.nerr e)

/-- Settlement state of the promise returned by `nodeEventSource`. -/
inductive Outcome where
  | pending
  | resolved
  | rejected (e : Thrown)
deriving DecidableEq, Repr

/-- `resolve()`: a no-op once the promise is settled. -/
def settleResolve (o : Outcome) : Outcome :=
  match o with
  | .pending => .resolved
  | o => o

/-- `reject(e)`: a no-op once the promise is settled. -/
def settleReject (o : Outcome) (e : Thrown) : Outcome :=
  match o with
  | .pending => .rejected e
  | o => o

/-- The caller-supplied configuration fields of `NodeEventSourceRequestConfig`
that the orchestrator consults: the optional `retryInterval`, whether an
`onClose` hook was given, and the optional `onError` policy. -/
structure Config where
  retryInterval : Option Nat
  hasOnClose : Bool
  onError : Option (NError → PolicyRes)

/-- The mutable state of one `nodeEventSource` call: the caller's untouched
header record, the orchestrator's own copy, the current retry delay, the
pending retry timer (with the delay it was scheduled with), the current
attempt's abort flag, the promise outcome, and hook-invocation counters. -/
structure OState where
  callerHeaders : Headers
  headers : Headers
  retryInterval : Nat
  timer : Option Nat
  curAborted : Bool
  outcome : Outcome
  closeCalls : Nat
  errorCalls : Nat

/-- `dispose()` from src/axios.ts: clear the retry timer and abort the
current attempt's controller. -/
def dispose (s : OState) : OState :=
  { s with timer := none, curAborted := true }

/-- The header copy made at call start (src/axios.ts lines 85-89): spread the
input record and default `accept` when it is absent or falsy. -/
def withAcceptDefault (h : Headers) : Headers :=
  match hGet h "accept" with
  | some v => if v = "" then hSet h "accept" EventStreamContentType else h
  | none => hSet h "accept" EventStreamContentType

/-- State at the start of a `nodeEventSource` call: copy the headers, take
the configured retry interval (default 1000), no timer, promise pending. -/
def initState (cfg : Config) (inputHeaders : Headers) : OState :=
  { callerHeaders := inputHeaders
    headers := withAcceptDefault inputHeaders
    retryInterval := cfg.retryInterval.getD DefaultRetryInterval
    timer := none
    curAborted := false
    outcome := .pending
    closeCalls := 0
    errorCalls := 0 }

/-- Start of `create()` (src/axios.ts line 105): a fresh `AbortController`
replaces the previous attempt's one. -/
def createAttempt (s : OState) : OState :=
  { s with curAborted := false }

/-- The headers object passed to the HTTP exchange of an attempt
(src/axios.ts line 111). -/
def requestHeaders (s : OState) : Headers :=
  s.headers

/-- The id sink wired into `getMessages` (src/axios.ts lines 122-130): a
truthy id is stored into the outgoing `last-event-id` header, a falsy one
deletes it. -/
def idSink (s : OState) (id : String) : OState :=
  if id = "" then { s with headers := hDel s.headers LastEventId }
  else { s with headers := hSet s.headers LastEventId id }

/-- The retry sink wired into `getMessages` (src/axios.ts lines 131-133):
overwrite the captured `retryInterval`. -/
def retrySink (s : OState) (v : Nat) : OState :=
  { s with retryInterval := v }

/-- The success tail of `create` (src/axios.ts lines 139-141): call
`onClose` when supplied, then `dispose()`, then `resolve()`. -/
def onCleanClose (cfg : Config) (s : OState) : OState :=
  let s1 := if cfg.hasOnClose then { s with closeCalls := s.closeCalls + 1 } else s
  let s2 := dispose s1
  { s2 with outcome := settleResolve s2.outcome }

/-- The `catch` block of `create` (src/axios.ts lines 142-165): suppressed
when the attempt's own controller aborted; otherwise invoke the error
policy (`defaultOnError` when none supplied), clear the timer, schedule a
retry after the current delay on a truthy verdict, and on a policy throw
`dispose()` and `reject` with the thrown value. -/
def onAttemptError (cfg : Config) (s : OState) (f : Fault) : OState :=
  if s.curAborted then s
  else
    let policy := cfg.onError.getD defaultOnError
    let s1 := { s with errorCalls := s.errorCalls + 1 }
    match policy (classify f) with
    | .ret v =>
      let s2 := { s1 with timer := none }
      if v.getD false then { s2 with timer := some s2.retryInterval } else s2
    | .raise e =>
      let s2 := dispose s1
      { s2 with outcome := settleReject s2.outcome e }

/-- The outer abort listener (src/axios.ts lines 99-102): `dispose()` then
`resolve()`. -/
def onExternalAbort (s : OState) : OState :=
  let s1 := dispose s
  { s1 with outcome := settleResolve s1.outcome }

/-- The response view consumed by `defaultOnOpen`: its header record. -/
structure SResponse where
  headers : Headers
deriving DecidableEq, Repr

/-- The content type `defaultOnOpen` reads: `response.headers["Content-Type"]`
(src/axios.ts line 173). -/
def contentTypeOf (r : SResponse) : Option String :=
  hGet r.headers "Content-Type"

/-- JavaScript `s.startsWith(p)`: the characters of `p` are an initial
segment of the characters of `s`. -/
def jsStartsWith (s p : String) : Bool :=
  decide (s.data.take p.data.length = p.data)

/-- `defaultOnOpen` from src/axios.ts lines 172-179: pass when the declared
content type starts with `text/event-stream`, otherwise throw the
descriptive error (template-printing a missing value as `undefined`). -/
def defaultOnOpen (r : SResponse) : Except String Unit :=
  match contentTypeOf r with
  | some ct =>
    if jsStartsWith ct EventStreamContentType then Except.ok ()
    else Except.error
      ("Expected content-type to be " ++ EventStreamContentType ++ ", Actual: " ++ ct)
  | none => Except.error
      ("Expected content-type to be " ++ EventStreamContentType ++ ", Actual: undefined")

/-- The Unicode replacement character U+FFFD. -/
def replacementChar : Char := Char.ofNat 0xFFFD

/-- A Unicode scalar value as a `Char`, or U+FFFD when out of range. -/
def codeToChar (n : Nat) : Char :=
  if n.isValidChar then Char.ofNat n else replacementChar

/-- Modelled from the spec: the UTF-8 sequence length announced by a lead
byte (the Line Framer's incremental decoder of section 4.2 lives in
`src/parse.ts`, which is not in the repository). -/
def utf8Len (lead : Nat) : Nat :=
  if lead < 0xE0 then 2 else if lead < 0xF0 then 3 else 4

/-- Modelled from the spec: decode one complete UTF-8 sequence to a
character. -/
def decodeSeq (seq : List Nat) : Char :=
  match seq with
  | [a, b] => codeToChar ((a - 0xC0) * 0x40 + (b - 0x80))
  | [a, b, c] => codeToChar ((a - 0xE0) * 0x1000 + (b - 0x80) * 0x40 + (c - 0x80))
  | [a, b, c, d] =>
    codeToChar ((a - 0xF0) * 0x40000 + (b - 0x80) * 0x1000 + (c - 0x80) * 0x40 + (d - 0x80))
  | _ => replacementChar

/-- Modelled from the spec: consume one byte with no sequence pending.
ASCII is emitted at once, a lead byte is held back as the start of a
multi-byte character, a stray continuation or invalid byte becomes U+FFFD. -/
def utf8Fresh (b : Nat) : List Char × List Nat :=
  if b < 0x80 then ([codeToChar b], [])
  else if b < 0xC0 then ([replacementChar], [])
  else if b < 0xF8 then ([], [b])
  else ([replacementChar], [])

/-- Modelled from the spec: one step of the incremental UTF-8 decoder; a
dangling partial character is held back until enough bytes arrive
(section 4.2), a broken sequence becomes U+FFFD. -/
def utf8Step (pend : List Nat) (b : Nat) : List Char × List Nat :=
  match pend with
  | [] => utf8Fresh b
  | lead :: rest =>
    if 0x80 ≤ b ∧ b < 0xC0 then
      let seq := (lead :: rest) ++ [b]
      if seq.length = utf8Len lead then ([decodeSeq seq], []) else ([], seq)
    else
      let fr := utf8Fresh b
      (replacementChar :: fr.1, fr.2)

/-- A decoded line: its text and the flag saying the stream ended exactly at
this line with no trailing terminator (section 3, "Line"). -/
structure Line where
  text : String
  endOfStream : Bool
deriving DecidableEq, Repr

/-- Modelled from the spec: the Line Framer's carried state — pending bytes
of an incomplete UTF-8 character, the text after the last terminator, and
whether the last consumed character was a carriage return (so that a
following line feed completes a `\r\n` pair instead of framing a second
line, even across a chunk boundary). -/
structure FramerState where
  pend : List Nat
  buf : List Char
  sawCR : Bool
deriving DecidableEq, Repr

/-- Modelled from the spec: consume one decoded character, emitting framed
lines for `\r\n`, `\n` and lone `\r` terminators (section 4.2). -/
def lineStep (s : FramerState) (c : Char) : List Line × FramerState :=
  if c = Char.ofNat 13 then
    ([⟨String.mk s.buf, false⟩], { s with buf := [], sawCR := true })
  else if c = Char.ofNat 10 then
    if s.sawCR then ([], { s with sawCR := false })
    else ([⟨String.mk s.buf, false⟩], { s with buf := [], sawCR := false })
  else ([], { s with buf := s.buf ++ [c], sawCR := false })

/-- Modelled from the spec: feed a list of decoded characters through
`lineStep`. -/
def charsStep (s : FramerState) (cs : List Char) : List Line × FramerState :=
  match cs with
  | [] => ([], s)
  | c :: rest =>
    let r1 := lineStep s c
    let r2 := charsStep r1.2 rest
    (r1.1 ++ r2.1, r2.2)

/-- Modelled from the spec: consume one raw byte — incremental UTF-8 decode,
then line framing of whatever characters completed. -/
def byteStep (s : FramerState) (b : Nat) : List Line × FramerState :=
  let d := utf8Step s.pend b
  charsStep { s with pend := d.2 } d.1

/-- Modelled from the spec: feed one chunk of bytes ("receives one chunk of
bytes" to "line sink receives zero or more complete lines"). -/
def bytesStep (s : FramerState) (bs : List Nat) : List Line × FramerState :=
  match bs with
  | [] => ([], s)
  | b :: rest =>
    let r1 := byteStep s b
    let r2 := bytesStep r1.2 rest
    (r1.1 ++ r2.1, r2.2)

/-- Modelled from the spec: feed a whole sequence of chunks. -/
def chunksStep (s : FramerState) (cs : List (List Nat)) : List Line × FramerState :=
  match cs with
  | [] => ([], s)
  | c :: rest =>
    let r1 := bytesStep s c
    let r2 := chunksStep r1.2 rest
    (r1.1 ++ r2.1, r2.2)

/-- Modelled from the spec: stream end — an incomplete UTF-8 character still
pending becomes U+FFFD, then a non-empty carry-over is emitted once as a
final line flagged as ending the stream (section 4.2, last rule). -/
def framerFinish (s : FramerState) : List Line :=
  let r :=
    if s.pend = [] then (([] : List Line), s)
    else charsStep { s with pend := [] } [replacementChar]
  r.1 ++ (if r.2.buf = [] then [] else [⟨String.mk r.2.buf, true⟩])

/-- Modelled from the spec: the framer's initial state. -/
def initFramer : FramerState := ⟨[], [], false⟩

/-- Modelled from the spec: the full line sequence produced by feeding the
given chunks and then signalling stream end. -/
def framerRun (chunks : List (List Nat)) : List Line :=
  let r := chunksStep initFramer chunks
  r.1 ++ framerFinish r.2

theorem bytesStep_append (s : FramerState) (xs ys : List Nat) :
    bytesStep s (xs ++ ys) =
      ((bytesStep s xs).1 ++ (bytesStep (bytesStep s xs).2 ys).1,
        (bytesStep (bytesStep s xs).2 ys).2) := by
  induction xs generalizing s with
  | nil => simp [bytesStep]
  | cons b rest ih => simp [bytesStep, ih]

theorem chunksStep_eq_flatten (s : FramerState) (cs : List (List Nat)) :
    chunksStep s cs = bytesStep s cs.flatten := by
  induction cs generalizing s with
  | nil => simp [chunksStep, bytesStep]
  | cons c rest ih => simp [chunksStep, ih, bytesStep_append]

theorem hGet_hSet (h : Headers) (k v : String) : hGet (hSet h k v) k = some v := by
  induction h with
  | nil => simp [hSet, hGet]
  | cons p rest ih =>
    obtain ⟨k1, v1⟩ := p
    by_cases hk : k1 = k
    · simp [hSet, hGet, hk]
    · simp [hSet, hGet, hk, ih]

theorem hGet_hDel (h : Headers) (k : String) : hGet (hDel h k) k = none := by
  induction h with
  | nil => simp [hDel, hGet]
  | cons p rest ih =>
    obtain ⟨k1, v1⟩ := p
    by_cases hk : k1 = k
    · simpa [hDel, List.filter_cons, hk] using ih
    · simpa [hDel, List.filter_cons, hGet, hk] using ih

/-- A live mid-stream orchestrator state: promise pending, no timer, current
attempt not aborted. -/
def liveState : OState :=
  { callerHeaders := []
    headers := [("accept", EventStreamContentType)]
    retryInterval := 1000
    timer := none
    curAborted := false
    outcome := .pending
    closeCalls := 0
    errorCalls := 0 }

/-- An error policy that returns `false`: retry declined without throwing. -/
def declinePolicy : NError → PolicyRes := fun _ => PolicyRes.ret (some false)

/-- A configuration whose caller-supplied error policy returns `false`. -/
def cfgDecline : Config := ⟨none, false, some declinePolicy⟩

/-- A configuration with no caller-supplied error policy. -/
def cfgNoPolicy : Config := ⟨none, false, none⟩

/-- Counterexample to claim C1: with a caller-supplied error policy that
returns `false` on a live attempt, the fault leaves the promise pending (it
settles neither way), so the operation does not reach a rejected terminal
state; no retry is scheduled either. -/
theorem falsy_verdict_promise_pending :
    (onAttemptError cfgDecline liveState (Fault.otherErr 7)).outcome = Outcome.pending ∧
    (onAttemptError cfgDecline liveState (Fault.otherErr 7)).timer = none := by
  constructor <;> rfl

/-- Claim C1 (amended): when the caller-supplied error policy returns a
non-truthy verdict for a fault on a live attempt, no further attempt is
scheduled, but the promise is left exactly as it was (unsettled): the
operation only rejects when the error policy throws. -/
theorem falsy_verdict_no_retry_no_settle (cfg : Config) (s : OState) (f : Fault)
    (p : NError → PolicyRes) (v : Option Bool)
    (hp : cfg.onError = some p) (hv : p (classify f) = .ret v)
    (hf : v.getD false = false) (ha : s.curAborted = false) :
    (onAttemptError cfg s f).timer = none ∧
    (onAttemptError cfg s f).outcome = s.outcome := by
  constructor <;> simp [onAttemptError, ha, hp, hv, hf]

/-- Witness for C1 (amended): concrete run of the declined-retry path. -/
theorem falsy_verdict_no_retry_no_settle_witness :
    (onAttemptError cfgDecline liveState (Fault.otherErr 7)).timer = none ∧
    (onAttemptError cfgDecline liveState (Fault.otherErr 7)).outcome = liveState.outcome :=
  falsy_verdict_no_retry_no_settle cfgDecline liveState (Fault.otherErr 7)
    declinePolicy (some false) rfl rfl rfl rfl

/-- An id containing an embedded null character. -/
def nullId : String := String.mk [Char.ofNat 97, Char.ofNat 0, Char.ofNat 98]

/-- Counterexample to claim C2: an id containing a null character delivered
to the id sink IS stored verbatim as the outgoing `last-event-id` header
value (the sink only tests truthiness, and a non-empty string is truthy). -/
theorem null_id_stored_in_header :
    containsNull nullId = true ∧
    hGet (idSink liveState nullId).headers LastEventId = some nullId := by
  constructor <;> decide

/-- Claim C2 (amended): every non-empty id delivered to the id sink —
including one containing a null character — is stored verbatim as the
outgoing `last-event-id` header value; the sink performs no null-character
filtering. -/
theorem idSink_stores_any_nonempty (s : OState) (id : String) (h : ¬id = "") :
    hGet (idSink s id).headers LastEventId = some id := by
  simp [idSink, h, hGet_hSet]

/-- Witness for C2 (amended): the null-carrying id is stored verbatim. -/
theorem idSink_stores_any_nonempty_witness :
    hGet (idSink liveState nullId).headers LastEventId = some nullId :=
  idSink_stores_any_nonempty liveState nullId (by decide)

/-- Claim C4: with no caller-supplied error policy, a fault on a live
attempt makes the operation reject with the classified error carrying that
fault as its origin, and no retry is scheduled. -/
theorem no_policy_rejects (cfg : Config) (s : OState) (f : Fault)
    (hp : cfg.onError = none) (ha : s.curAborted = false) (ho : s.outcome = .pending) :
    (onAttemptError cfg s f).outcome = Outcome.rejected (Thrown.nerr (classify f)) ∧
    (classify f).origin = f ∧
    (onAttemptError cfg s f).timer = none := by
  refine ⟨?_, ?_, ?_⟩
  · simp [onAttemptError, ha, hp, defaultOnError, dispose, settleReject, ho]
  · cases f <;> rfl
  · simp [onAttemptError, ha, hp, defaultOnError, dispose]

/-- Witness for C4: a concrete transport fault with no policy rejects. -/
theorem no_policy_rejects_witness :
    (onAttemptError cfgNoPolicy liveState (Fault.axiosErr 3)).outcome
        = Outcome.rejected (Thrown.nerr (classify (Fault.axiosErr 3))) ∧
    (classify (Fault.axiosErr 3)).origin = Fault.axiosErr 3 ∧
    (onAttemptError cfgNoPolicy liveState (Fault.axiosErr 3)).timer = none :=
  no_policy_rejects cfgNoPolicy liveState (Fault.axiosErr 3) rfl rfl rfl

/-- Claim C8: after the id sink receives a non-empty id, the header state
used for subsequent attempts carries `last-event-id` with that value; after
it receives an empty (falsy) id, the header is removed. -/
theorem idSink_header_contract (s : OState) (id : String) :
    (¬id = "" → hGet (requestHeaders (idSink s id)) LastEventId = some id) ∧
    hGet (requestHeaders (idSink s "")) LastEventId = none := by
  constructor
  · intro h
    simp [requestHeaders, idSink, h, hGet_hSet]
  · simp [requestHeaders, idSink, hGet_hDel]

/-- Witness for C8: a concrete id is set, an empty id removes the header. -/
theorem idSink_header_contract_witness :
    hGet (requestHeaders (idSink liveState "5")) LastEventId = some "5" ∧
    hGet (requestHeaders (idSink liveState "")) LastEventId = none :=
  ⟨(idSink_header_contract liveState "5").1 (by decide),
   (idSink_header_contract liveState "5").2⟩

/-- An error policy that always asks for a retry. -/
def alwaysRetryPolicy : NError → PolicyRes := fun _ => PolicyRes.ret (some true)

/-- A configuration with an explicit `retryInterval` and a retrying policy. -/
def cfgRetry : Config := ⟨some 2000, false, some alwaysRetryPolicy⟩

/-- Claim C9: the retry delay starts at the configured `retryInterval`
(1000 when not configured), each retry-sink value replaces it, and a retry
scheduled by the error path uses the orchestrator's current delay at
scheduling time. -/
theorem retry_delay_contract :
    (∀ cfg h, (initState cfg h).retryInterval = cfg.retryInterval.getD DefaultRetryInterval) ∧
    (∀ cfg h, cfg.retryInterval = none → (initState cfg h).retryInterval = 1000) ∧
    (∀ s v, (retrySink s v).retryInterval = v) ∧
    (∀ cfg s f p v, cfg.onError = some p → s.curAborted = false →
      p (classify f) = PolicyRes.ret v → v.getD false = true →
      (onAttemptError cfg s f).timer = some s.retryInterval) := by
  refine ⟨fun cfg h => rfl, ?_, fun s v => rfl, ?_⟩
  · intro cfg h hn
    simp [initState, hn, DefaultRetryInterval]
  · intro cfg s f p v hp ha hv ht
    simp [onAttemptError, ha, hp, hv, ht]

/-- Witness for C9: concrete initial delays, a sink update, and a scheduled
retry at the current delay. -/
theorem retry_delay_contract_witness :
    (initState cfgRetry []).retryInterval = cfgRetry.retryInterval.getD DefaultRetryInterval ∧
    (initState cfgNoPolicy []).retryInterval = 1000 ∧
    (retrySink liveState 3000).retryInterval = 3000 ∧
    (onAttemptError cfgRetry liveState (Fault.axiosErr 1)).timer = some liveState.retryInterval :=
  ⟨retry_delay_contract.1 cfgRetry [],
   retry_delay_contract.2.1 cfgNoPolicy [] rfl,
   retry_delay_contract.2.2.1 liveState 3000,
   retry_delay_contract.2.2.2 cfgRetry liveState (Fault.axiosErr 1) alwaysRetryPolicy
     (some true) rfl rfl rfl rfl⟩

/-- A configuration with a caller-supplied close hook. -/
def cfgClose : Config := ⟨none, true, none⟩

/-- A live state with a retry timer pending. -/
def timerState : OState := { liveState with timer := some 1000 }

/-- Claim C5: external cancellation on a live operation clears the retry
timer, aborts the current attempt's handle, resolves the operation
successfully, invokes neither the close hook nor the error policy, and
schedules no further attempt — in particular a subsequent fault of the
aborted attempt is fully suppressed. -/
theorem external_abort_cancels (cfg : Config) (s : OState) (f : Fault)
    (h : s.outcome = .pending) :
    (onExternalAbort s).timer = none ∧
    (onExternalAbort s).curAborted = true ∧
    (onExternalAbort s).outcome = Outcome.resolved ∧
    (onExternalAbort s).closeCalls = s.closeCalls ∧
    (onExternalAbort s).errorCalls = s.errorCalls ∧
    onAttemptError cfg (onExternalAbort s) f = onExternalAbort s := by
  refine ⟨rfl, rfl, ?_, rfl, rfl, ?_⟩
  · simp [onExternalAbort, dispose, settleResolve, h]
  · simp [onAttemptError, onExternalAbort, dispose]

/-- Witness for C5: cancellation of a live operation with a pending retry
timer. -/
theorem external_abort_cancels_witness :
    (onExternalAbort timerState).timer = none ∧
    (onExternalAbort timerState).curAborted = true ∧
    (onExternalAbort timerState).outcome = Outcome.resolved ∧
    (onExternalAbort timerState).closeCalls = timerState.closeCalls ∧
    (onExternalAbort timerState).errorCalls = timerState.errorCalls ∧
    onAttemptError cfgNoPolicy (onExternalAbort timerState) (Fault.otherErr 1)
        = onExternalAbort timerState :=
  external_abort_cancels cfgNoPolicy timerState (Fault.otherErr 1) rfl

/-- Claim C7: an attempt whose stream ends naturally invokes the caller's
close hook and resolves the operation successfully, with no retry
scheduled after the clean close. -/
theorem clean_close_resolves (cfg : Config) (s : OState)
    (hc : cfg.hasOnClose = true) (h : s.outcome = .pending) :
    (onCleanClose cfg s).closeCalls = s.closeCalls + 1 ∧
    (onCleanClose cfg s).outcome = Outcome.resolved ∧
    (onCleanClose cfg s).timer = none := by
  refine ⟨?_, ?_, ?_⟩ <;> simp [onCleanClose, hc, dispose, settleResolve, h]

/-- Witness for C7: a concrete clean close. -/
theorem clean_close_resolves_witness :
    (onCleanClose cfgClose liveState).closeCalls = liveState.closeCalls + 1 ∧
    (onCleanClose cfgClose liveState).outcome = Outcome.resolved ∧
    (onCleanClose cfgClose liveState).timer = none :=
  clean_close_resolves cfgClose liveState rfl rfl

/-- Claim C3: with no custom open hook, default validation accepts exactly
the responses whose declared content type (the code's
`headers["Content-Type"]` read) starts with `text/event-stream`, and
rejects the rest with the descriptive error message of the source. -/
theorem default_open_validation (r : SResponse) :
    (contentTypeOf r = some EventStreamContentType → defaultOnOpen r = Except.ok ()) ∧
    (∀ ct, contentTypeOf r = some ct → jsStartsWith ct EventStreamContentType = false →
      defaultOnOpen r = Except.error
        ("Expected content-type to be " ++ EventStreamContentType ++ ", Actual: " ++ ct)) ∧
    (contentTypeOf r = none → defaultOnOpen r = Except.error
        ("Expected content-type to be " ++ EventStreamContentType ++ ", Actual: undefined")) := by
  refine ⟨?_, ?_, ?_⟩
  · intro h
    have hs : jsStartsWith EventStreamContentType EventStreamContentType = true := by decide
    simp [defaultOnOpen, h, hs]
  · intro ct h hs
    simp [defaultOnOpen, h, hs]
  · intro h
    simp [defaultOnOpen, h]

/-- A response declaring the event-stream content type. -/
def okResponse : SResponse := ⟨[("Content-Type", "text/event-stream")]⟩

/-- A response declaring a non-matching content type. -/
def badResponse : SResponse := ⟨[("Content-Type", "application/json")]⟩

/-- A response with no declared content type. -/
def noTypeResponse : SResponse := ⟨[]⟩

/-- Witness for C3: the three validation outcomes on concrete responses. -/
theorem default_open_validation_witness :
    defaultOnOpen okResponse = Except.ok () ∧
    defaultOnOpen badResponse = Except.error
      ("Expected content-type to be " ++ EventStreamContentType ++ ", Actual: application/json") ∧
    defaultOnOpen noTypeResponse = Except.error
      ("Expected content-type to be " ++ EventStreamContentType ++ ", Actual: undefined") :=
  ⟨(default_open_validation okResponse).1 (by decide),
   (default_open_validation badResponse).2.1 "application/json" (by decide) (by decide),
   (default_open_validation noTypeResponse).2.2 rfl⟩

theorem onAttemptError_callerHeaders (cfg : Config) (s : OState) (f : Fault) :
    (onAttemptError cfg s f).callerHeaders = s.callerHeaders := by
  by_cases ha : s.curAborted
  · simp [onAttemptError, ha]
  · cases hpc : (cfg.onError.getD defaultOnError) (classify f) with
    | ret v =>
      by_cases hv : v.getD false <;> simp [onAttemptError, ha, hpc, hv, dispose]
    | raise e => simp [onAttemptError, ha, hpc, dispose]

theorem onCleanClose_callerHeaders (cfg : Config) (s : OState) :
    (onCleanClose cfg s).callerHeaders = s.callerHeaders := by
  unfold onCleanClose
  split <;> rfl

theorem idSink_callerHeaders (s : OState) (id : String) :
    (idSink s id).callerHeaders = s.callerHeaders := by
  unfold idSink
  split <;> rfl

/-- Claim C10: the caller-supplied headers record is never mutated — the
call copies it at start (adding the `accept` default to the copy when the
caller gave none) and every transition of the operation leaves the caller's
record untouched, applying all header changes to the copy. -/
theorem caller_headers_never_mutated :
    (∀ cfg h, (initState cfg h).callerHeaders = h) ∧
    (∀ cfg h, (initState cfg h).headers = withAcceptDefault h) ∧
    (∀ h, hGet h "accept" = none →
      hGet (withAcceptDefault h) "accept" = some EventStreamContentType) ∧
    (∀ s id, (idSink s id).callerHeaders = s.callerHeaders) ∧
    (∀ s v, (retrySink s v).callerHeaders = s.callerHeaders) ∧
    (∀ cfg s f, (onAttemptError cfg s f).callerHeaders = s.callerHeaders) ∧
    (∀ cfg s, (onCleanClose cfg s).callerHeaders = s.callerHeaders) ∧
    (∀ s, (onExternalAbort s).callerHeaders = s.callerHeaders) ∧
    (∀ s, (createAttempt s).callerHeaders = s.callerHeaders) := by
  refine ⟨fun cfg h => rfl, fun cfg h => rfl, ?_, idSink_callerHeaders,
    fun s v => rfl, onAttemptError_callerHeaders, onCleanClose_callerHeaders,
    fun s => rfl, fun s => rfl⟩
  intro h hn
  simp [withAcceptDefault, hn, hGet_hSet]

/-- Witness for C10: a concrete call leaves the caller's record unchanged
while the copy gains the accept default and later the last-event-id. -/
theorem caller_headers_never_mutated_witness :
    (initState cfgNoPolicy [("x", "1")]).callerHeaders = [("x", "1")] ∧
    (initState cfgNoPolicy [("x", "1")]).headers = withAcceptDefault [("x", "1")] ∧
    hGet (withAcceptDefault [("x", "1")]) "accept" = some EventStreamContentType ∧
    (idSink liveState "9").callerHeaders = liveState.callerHeaders :=
  ⟨caller_headers_never_mutated.1 cfgNoPolicy [("x", "1")],
   caller_headers_never_mutated.2.1 cfgNoPolicy [("x", "1")],
   caller_headers_never_mutated.2.2.1 [("x", "1")] (by decide),
   caller_headers_never_mutated.2.2.2.1 liveState "9"⟩

/-- Claim C6: for every byte sequence and every pair of chunkings of it, the
line framer yields the identical sequence of decoded lines — same texts,
same order, same end-of-stream flags — including when a multi-byte UTF-8
character or a CRLF pair is split across two chunks. -/
theorem framer_chunking_invariant (cs1 cs2 : List (List Nat))
    (h : cs1.flatten = cs2.flatten) :
    framerRun cs1 = framerRun cs2 := by
  unfold framerRun
  rw [chunksStep_eq_flatten, chunksStep_eq_flatten, h]

/-- Witness for C6: a two-byte UTF-8 character and a CRLF pair split across
chunk boundaries frame identically to the unsplit stream. -/
theorem framer_chunking_invariant_witness :
    ([[195], [169, 13], [10]] : List (List Nat)).flatten
        = ([[195, 169, 13, 10]] : List (List Nat)).flatten ∧
    framerRun [[195], [169, 13], [10]] = framerRun [[195, 169, 13, 10]] :=
  ⟨by decide, framer_chunking_invariant [[195], [169, 13], [10]] [[195, 169, 13, 10]] (by decide)⟩

/-- Sanity check of the framer model: the split stream above decodes to the
single line `é` terminated by the CRLF pair, not flagged as end of
stream. -/
theorem framer_sanity :
    framerRun [[195], [169, 13], [10]] = [⟨String.mk [Char.ofNat 233], false⟩] := by
  decide
